import Mathlib

/-!
Verification of the `bc-totorobot` service (`src/lib.rs`).

The single interesting handler, `post_mailchimp_stats` (lib.rs lines 62-235),
is embedded as a pure function of the ambient environment variables and of
the outcomes of the two outbound network calls: the Mailchimp list-info
fetch and the Basecamp webhook POST.  An `expect` abort in the Rust code is
modelled by the `HandlerOutcome.fatal` constructor carrying the `expect`
message; a returned `ApiResponse` is modelled by `HandlerOutcome.responds`.

Numeric list statistics are optional finite floating-point values in the
provider's response; every finite double is a rational, and the only
operation the code performs on them is the zero-decimal-place display
format, which rounds the exact value half-to-even to an integer.  The
fields are therefore embedded as `Option ℚ` and the display format as
`fmt0` below.
-/

/-- Round half to even of a rational to an integer: the rounding performed by
Rust zero-decimal-place float formatting (precision 0), applied to the exact
value of the finite double. -/
def roundHalfEven (q : ℚ) : ℤ :=
  let f : ℤ := ⌊q⌋
  let r : ℚ := q - (f : ℚ)
  if r < 1 / 2 then f
  else if 1 / 2 < r then f + 1
  else if f % 2 = 0 then f else f + 1

/-- Decimal digit characters of a natural number, most significant first. -/
def toDigitChars (n : ℕ) : List Char :=
  if h : n < 10 then [Char.ofNat (48 + n)]
  else toDigitChars (n / 10) ++ [Char.ofNat (48 + n % 10)]
termination_by n
decreasing_by
  exact Nat.div_lt_self (by omega) (by omega)

/-- Model of Rust `format` with the `:.0` (zero decimal places) specifier on a
finite double of exact value `q`: round half to even, keeping the sign for
negative values that round to zero (Rust prints `-0` there). -/
def fmt0 (q : ℚ) : String :=
  String.mk ((if q < 0 then ['-'] else []) ++ toDigitChars (roundHalfEven q).natAbs)

/-- The list-statistics record returned by the provider; the six fields read
by `post_mailchimp_stats` (lib.rs lines 89-147), each independently optional. -/
structure ListStats where
  member_count : Option ℚ
  member_count_since_send : Option ℚ
  unsubscribe_count_since_send : Option ℚ
  avg_sub_rate : Option ℚ
  avg_unsub_rate : Option ℚ
  click_rate : Option ℚ

/-- The Campfire bot text built by lib.rs lines 85-147: a fixed header
followed by one list item per present field, in source order, each value
rendered with `fmt0`. -/
def post_mailchimp_content (stats : ListStats) : String :=
  let content := "<strong>Mailchimp Stats (Rust)</strong><ul>"
  let content :=
    match stats.member_count with
    | some member_count =>
        content ++ ("<li><strong>Active subscribers:</strong> "
          ++ fmt0 member_count ++ "</li>")
    | none => content
  let content :=
    match stats.member_count_since_send with
    | some subscribe_count_since_send =>
        content ++ ("<li><strong>Subscribes since last send:</strong> "
          ++ fmt0 subscribe_count_since_send ++ "</li>")
    | none => content
  let content :=
    match stats.unsubscribe_count_since_send with
    | some unsubscribe_count_since_send =>
        content ++ ("<li><strong>Unsubscribes since last send:</strong> "
          ++ fmt0 unsubscribe_count_since_send ++ "</li>")
    | none => content
  let content :=
    match stats.avg_sub_rate with
    | some avg_sub_rate =>
        content ++ ("<li><strong>Subscribe rate:</strong> "
          ++ fmt0 avg_sub_rate ++ "/m</li>")
    | none => content
  let content :=
    match stats.avg_unsub_rate with
    | some avg_unsub_rate =>
        content ++ ("<li><strong>Unsubscribe rate:</strong> "
          ++ fmt0 avg_unsub_rate ++ "/m</li>")
    | none => content
  let content :=
    match stats.click_rate with
    | some click_rate =>
        content ++ ("<li><strong>Click rate:</strong> "
          ++ fmt0 click_rate ++ "%</li>")
    | none => content
  content

/-- The serverless custom-handler response envelope (lib.rs lines 25-37). -/
structure AzureResponse where
  logs : List String
  return_value : String
  deriving DecidableEq

/-- A JSON body paired with an HTTP status code (lib.rs lines 43-46);
`Status.Ok` is 200 and `Status.InternalServerError` is 500. -/
structure ApiResponse where
  json : AzureResponse
  status : ℕ
  deriving DecidableEq

/-- Either the handler aborts (an `expect` failure, carrying its message) or
it returns an `ApiResponse`. -/
inductive HandlerOutcome where
  | fatal (msg : String)
  | responds (r : ApiResponse)
  deriving DecidableEq

/-- The provider's list-info result, of which the handler only reads the
optional `stats` sub-object (lib.rs line 80). -/
structure MailchimpList where
  stats : Option ListStats

/-- The environment variables read by the handler; each is present with a
string value or absent.  `TOTORO_PRODUCTION` is tested for presence only. -/
structure TotoroEnv where
  totoro_mailchimp_apikey : Option String
  totoro_mailchimp_list_id : Option String
  totoro_basecamp_boturl : Option String
  totoro_production : Option String

/-- The handler's outcome together with whether the webhook POST was issued. -/
structure RunResult where
  outcome : HandlerOutcome
  webhook_called : Bool
  deriving DecidableEq

/-- Model of `StatusCode.is_success`: a 2xx status code. -/
def is_success (code : ℕ) : Bool := 200 ≤ code && code ≤ 299

/-- Embedding of the handler `post_mailchimp_stats` (lib.rs lines 62-235).
`r_list` is the outcome of `lists.get_list_info` and `webhook_send` maps the
POSTed content to the outcome of the blocking reqwest call: a transport
error's debug text, or the response status code. -/
def post_mailchimp_stats (env : TotoroEnv)
    (r_list : Except String MailchimpList)
    (webhook_send : String → Except String ℕ) : RunResult :=
  match env.totoro_mailchimp_apikey with
  | none => ⟨.fatal "TOTORO_MAILCHIMP_APIKEY not set", false⟩
  | some _api_key =>
  match env.totoro_mailchimp_list_id with
  | none => ⟨.fatal "TOTORO_MAILCHIMP_LIST_ID not set", false⟩
  | some _list_id =>
  match r_list with
  | .ok list =>
    match list.stats with
    | none => ⟨.fatal "No stats returned", false⟩
    | some stats =>
      let content := post_mailchimp_content stats
      if (env.totoro_production).isSome then
        match env.totoro_basecamp_boturl with
        | none => ⟨.fatal "TOTORO_BASECAMP_BOTURL not set", false⟩
        | some _basecamp_bot_url =>
          match webhook_send content with
          | .error e => ⟨.fatal ("Reqwest client error: " ++ e), true⟩
          | .ok code =>
            if is_success code then
              ⟨.responds ⟨⟨[], "ok"⟩, 200⟩, true⟩
            else
              ⟨.responds ⟨⟨["Error posting to Basecamp: " ++ toString code],
                "error"⟩, 500⟩, true⟩
      else
        ⟨.responds ⟨⟨[], "ok"⟩, 200⟩, false⟩
  | .error e =>
    ⟨.responds ⟨⟨["Error getting Mailchimp list info: " ++ e], "error"⟩,
      500⟩, false⟩

/-- Model of Rust `str::parse` at type `u16`: an optional leading plus sign,
then one or more decimal digits, and the value must fit in 16 bits. -/
def parse_u16 (s : String) : Option ℕ :=
  let ds :=
    match s.data with
    | '+' :: rest => rest
    | l => l
  if ds.isEmpty then none
  else if ds.all Char.isDigit then
    let n := ds.foldl (fun acc c => acc * 10 + (c.toNat - 48)) 0
    if n ≤ 65535 then some n else none
  else none

/-- Embedding of the port selection in `rocket` (lib.rs lines 243-246): the
`Except.error` case is the `expect` abort at startup. -/
def rocket_port (port_var : Option String) : Except String ℕ :=
  match port_var with
  | some val =>
    match parse_u16 val with
    | some n => .ok n
    | none => .error "Custom Handler port is not a number!"
  | none => .ok 3000

/-- One summary entry of the formatter, as a function of the optional field:
the fixed text before the value, the value, the fixed text after it; absent
fields produce the empty string. -/
def optEntry (o : Option ℚ) (pre suf : String) : String :=
  match o with
  | some v => pre ++ fmt0 v ++ suf
  | none => ""

/-- How many of the six optional fields are present. -/
def presentCount (stats : ListStats) : ℕ :=
  (if stats.member_count.isSome then 1 else 0)
  + (if stats.member_count_since_send.isSome then 1 else 0)
  + (if stats.unsubscribe_count_since_send.isSome then 1 else 0)
  + (if stats.avg_sub_rate.isSome then 1 else 0)
  + (if stats.avg_unsub_rate.isSome then 1 else 0)
  + (if stats.click_rate.isSome then 1 else 0)

/-- Whether the pattern `p` is a prefix of `l`. -/
def startsWithPat (p l : List Char) : Bool := p.isPrefixOf l

/-- Number of positions of `l` at which the pattern `p` occurs. -/
def countPat (p : List Char) : List Char → ℕ
  | [] => 0
  | c :: rest => (if startsWithPat p (c :: rest) then 1 else 0) + countPat p rest

/-- No nonempty proper suffix of `xs` is a prefix of the pattern `p`; an
occurrence of `p` in `xs ++ ys` therefore cannot straddle the boundary. -/
def safeTail (p xs : List Char) : Prop :=
  ∀ s ∈ xs.tails, s ≠ [] → s.length < p.length → s.isPrefixOf p = false

instance safeTail.instDecidable (p xs : List Char) : Decidable (safeTail p xs) :=
  inferInstanceAs (Decidable (∀ s ∈ xs.tails, s ≠ [] → s.length < p.length
    → s.isPrefixOf p = false))

/-- The list-item opening tag, as a character pattern. -/
def liPat : List Char := "<li>".data

/-- The closing tag of an unordered list, as a character pattern. -/
def ulPat : List Char := "</ul>".data

/-- C3: when the stats fetch succeeds (delivering a stats record) and the
production flag is unset, the handler issues no webhook call and returns the
"ok" envelope with status 200 and empty logs. -/
theorem c3_dev_no_network (env : TotoroEnv) (api_key list_id : String)
    (list : MailchimpList) (st : ListStats)
    (webhook_send : String → Except String ℕ)
    (h1 : env.totoro_mailchimp_apikey = some api_key)
    (h2 : env.totoro_mailchimp_list_id = some list_id)
    (h3 : env.totoro_production = none)
    (h4 : list.stats = some st) :
    post_mailchimp_stats env (.ok list) webhook_send
      = ⟨.responds ⟨⟨[], "ok"⟩, 200⟩, false⟩ := by
  simp [post_mailchimp_stats, h1, h2, h3, h4]

/-- Witness for C3 at a concrete environment and stats record. -/
theorem c3_dev_no_network_witness :
    post_mailchimp_stats ⟨some "key", some "list", none, none⟩
        (.ok ⟨some ⟨none, none, none, none, none, none⟩⟩) (fun _ => .ok 200)
      = ⟨.responds ⟨⟨[], "ok"⟩, 200⟩, false⟩ :=
  c3_dev_no_network _ "key" "list" _ ⟨none, none, none, none, none, none⟩ _
    rfl rfl rfl rfl

/-- C4 counterexample: with the production flag set and full configuration, a
transport failure of the webhook POST aborts the handler with the reqwest
`expect` message instead of being recovered into an error envelope. -/
theorem c4_counterexample :
    post_mailchimp_stats ⟨some "key", some "list", some "https://bc", some "1"⟩
        (.ok ⟨some ⟨none, none, none, none, none, none⟩⟩)
        (fun _ => .error "connection refused")
      = ⟨.fatal "Reqwest client error: connection refused", true⟩ := by
  rfl

/-- C4 amended: with the production flag set, a completed webhook POST with a
non-2xx status is recovered into the "error" envelope with status 500, while
a transport failure of the POST aborts the handler fatally. -/
theorem c4_amended_webhook_failure (env : TotoroEnv)
    (api_key list_id bot_url : String) (list : MailchimpList) (st : ListStats)
    (webhook_send : String → Except String ℕ)
    (h1 : env.totoro_mailchimp_apikey = some api_key)
    (h2 : env.totoro_mailchimp_list_id = some list_id)
    (h3 : env.totoro_production.isSome = true)
    (h4 : list.stats = some st)
    (h5 : env.totoro_basecamp_boturl = some bot_url) :
    (∀ e, webhook_send (post_mailchimp_content st) = .error e →
      post_mailchimp_stats env (.ok list) webhook_send
        = ⟨.fatal ("Reqwest client error: " ++ e), true⟩)
    ∧ (∀ code, webhook_send (post_mailchimp_content st) = .ok code →
        is_success code = false →
        post_mailchimp_stats env (.ok list) webhook_send
          = ⟨.responds ⟨⟨["Error posting to Basecamp: " ++ toString code],
              "error"⟩, 500⟩, true⟩) := by
  constructor
  · intro e he
    simp [post_mailchimp_stats, h1, h2, h3, h4, h5, he]
  · intro code hc hns
    simp [post_mailchimp_stats, h1, h2, h3, h4, h5, hc, hns]

/-- Witness for the amended C4 at concrete inputs exercising both branches. -/
theorem c4_amended_webhook_failure_witness :
    post_mailchimp_stats ⟨some "key", some "list", some "https://bc", some "1"⟩
        (.ok ⟨some ⟨none, none, none, none, none, none⟩⟩)
        (fun _ => .error "timed out")
      = ⟨.fatal "Reqwest client error: timed out", true⟩
    ∧ post_mailchimp_stats ⟨some "key", some "list", some "https://bc", some "1"⟩
        (.ok ⟨some ⟨none, none, none, none, none, none⟩⟩) (fun _ => .ok 503)
      = ⟨.responds ⟨⟨["Error posting to Basecamp: " ++ toString 503],
          "error"⟩, 500⟩, true⟩ :=
  ⟨(c4_amended_webhook_failure
      ⟨some "key", some "list", some "https://bc", some "1"⟩
      "key" "list" "https://bc" _ ⟨none, none, none, none, none, none⟩ _
      rfl rfl rfl rfl rfl).1 "timed out" rfl,
   (c4_amended_webhook_failure
      ⟨some "key", some "list", some "https://bc", some "1"⟩
      "key" "list" "https://bc" _ ⟨none, none, none, none, none, none⟩ _
      rfl rfl rfl rfl rfl).2 503 rfl (by decide)⟩

/-- C5: with the production flag set, a successful fetch, and a webhook POST
completing with a non-2xx status, the handler returns status 500 with the
"error" envelope holding exactly the one log line about the webhook failure. -/
theorem c5_webhook_non2xx (env : TotoroEnv)
    (api_key list_id bot_url : String) (list : MailchimpList) (st : ListStats)
    (webhook_send : String → Except String ℕ) (code : ℕ)
    (h1 : env.totoro_mailchimp_apikey = some api_key)
    (h2 : env.totoro_mailchimp_list_id = some list_id)
    (h3 : env.totoro_production.isSome = true)
    (h4 : list.stats = some st)
    (h5 : env.totoro_basecamp_boturl = some bot_url)
    (h6 : webhook_send (post_mailchimp_content st) = .ok code)
    (h7 : is_success code = false) :
    post_mailchimp_stats env (.ok list) webhook_send
      = ⟨.responds ⟨⟨["Error posting to Basecamp: " ++ toString code],
          "error"⟩, 500⟩, true⟩ := by
  simp [post_mailchimp_stats, h1, h2, h3, h4, h5, h6, h7]

/-- Witness for C5 at a concrete environment and a 404 webhook response. -/
theorem c5_webhook_non2xx_witness :
    post_mailchimp_stats ⟨some "key", some "list", some "https://bc", some "1"⟩
        (.ok ⟨some ⟨none, none, none, none, none, none⟩⟩) (fun _ => .ok 404)
      = ⟨.responds ⟨⟨["Error posting to Basecamp: " ++ toString 404],
          "error"⟩, 500⟩, true⟩ :=
  c5_webhook_non2xx _ "key" "list" "https://bc" _
    ⟨none, none, none, none, none, none⟩ _ 404 rfl rfl rfl rfl rfl rfl
    (by decide)

/-- C6: when the provider list-info call fails, the handler returns status 500
with the "error" envelope holding exactly the one log line about the provider
failure, and the webhook is never invoked. -/
theorem c6_provider_failure (env : TotoroEnv) (api_key list_id e : String)
    (webhook_send : String → Except String ℕ)
    (h1 : env.totoro_mailchimp_apikey = some api_key)
    (h2 : env.totoro_mailchimp_list_id = some list_id) :
    post_mailchimp_stats env (.error e) webhook_send
      = ⟨.responds ⟨⟨["Error getting Mailchimp list info: " ++ e], "error"⟩,
          500⟩, false⟩ := by
  simp [post_mailchimp_stats, h1, h2]

/-- Witness for C6 at a concrete environment and provider error. -/
theorem c6_provider_failure_witness :
    post_mailchimp_stats ⟨some "key", some "list", none, none⟩
        (.error "dns failure") (fun _ => .ok 200)
      = ⟨.responds ⟨⟨["Error getting Mailchimp list info: dns failure"],
          "error"⟩, 500⟩, false⟩ :=
  c6_provider_failure _ "key" "list" "dns failure" _ rfl rfl

/-- C7 counterexample: with the production flag set and the webhook URL
absent, a failing provider call still yields the 500 error envelope, so the
missing configuration value does not abort the handler there. -/
theorem c7_counterexample :
    post_mailchimp_stats ⟨some "key", some "list", none, some "1"⟩
        (.error "connection reset") (fun _ => .ok 200)
      = ⟨.responds ⟨⟨["Error getting Mailchimp list info: connection reset"],
          "error"⟩, 500⟩, false⟩ := by
  rfl

/-- C7 amended: a missing API key or list ID aborts the handler fatally
before any fetch; a successful provider response without a stats sub-object
aborts fatally; and when the production flag is set and the webhook step is
reached, a missing webhook URL aborts fatally.  In each case no response
envelope is produced. -/
theorem c7_config_fatal_amended :
    (∀ (env : TotoroEnv) r_list webhook_send,
        env.totoro_mailchimp_apikey = none →
        post_mailchimp_stats env r_list webhook_send
          = ⟨.fatal "TOTORO_MAILCHIMP_APIKEY not set", false⟩)
    ∧ (∀ (env : TotoroEnv) r_list webhook_send api_key,
        env.totoro_mailchimp_apikey = some api_key →
        env.totoro_mailchimp_list_id = none →
        post_mailchimp_stats env r_list webhook_send
          = ⟨.fatal "TOTORO_MAILCHIMP_LIST_ID not set", false⟩)
    ∧ (∀ (env : TotoroEnv) webhook_send api_key list_id
        (list : MailchimpList),
        env.totoro_mailchimp_apikey = some api_key →
        env.totoro_mailchimp_list_id = some list_id →
        list.stats = none →
        post_mailchimp_stats env (.ok list) webhook_send
          = ⟨.fatal "No stats returned", false⟩)
    ∧ (∀ (env : TotoroEnv) webhook_send api_key list_id
        (list : MailchimpList) (st : ListStats),
        env.totoro_mailchimp_apikey = some api_key →
        env.totoro_mailchimp_list_id = some list_id →
        list.stats = some st →
        env.totoro_production.isSome = true →
        env.totoro_basecamp_boturl = none →
        post_mailchimp_stats env (.ok list) webhook_send
          = ⟨.fatal "TOTORO_BASECAMP_BOTURL not set", false⟩) := by
  refine ⟨?_, ?_, ?_, ?_⟩
  · intro env r_list webhook_send h1
    simp [post_mailchimp_stats, h1]
  · intro env r_list webhook_send api_key h1 h2
    simp [post_mailchimp_stats, h1, h2]
  · intro env webhook_send api_key list_id list h1 h2 h3
    simp [post_mailchimp_stats, h1, h2, h3]
  · intro env webhook_send api_key list_id list st h1 h2 h3 h4 h5
    simp [post_mailchimp_stats, h1, h2, h3, h4, h5]

/-- Witness for the amended C7 at concrete inputs exercising all four fatal
conditions. -/
theorem c7_config_fatal_amended_witness :
    post_mailchimp_stats ⟨none, none, none, none⟩ (.error "x") (fun _ => .ok 200)
      = ⟨.fatal "TOTORO_MAILCHIMP_APIKEY not set", false⟩
    ∧ post_mailchimp_stats ⟨some "key", none, none, none⟩ (.error "x")
        (fun _ => .ok 200)
      = ⟨.fatal "TOTORO_MAILCHIMP_LIST_ID not set", false⟩
    ∧ post_mailchimp_stats ⟨some "key", some "list", none, none⟩ (.ok ⟨none⟩)
        (fun _ => .ok 200)
      = ⟨.fatal "No stats returned", false⟩
    ∧ post_mailchimp_stats ⟨some "key", some "list", none, some "1"⟩
        (.ok ⟨some ⟨none, none, none, none, none, none⟩⟩) (fun _ => .ok 200)
      = ⟨.fatal "TOTORO_BASECAMP_BOTURL not set", false⟩ :=
  ⟨c7_config_fatal_amended.1 _ _ _ rfl,
   c7_config_fatal_amended.2.1 _ _ _ "key" rfl rfl,
   c7_config_fatal_amended.2.2.1 _ _ "key" "list" _ rfl rfl rfl,
   c7_config_fatal_amended.2.2.2 _ _ "key" "list" _
     ⟨none, none, none, none, none, none⟩ rfl rfl rfl rfl rfl⟩

/-- C8: every response the handler actually returns has status 200 or 500;
status 200 exactly when the return value is "ok" with empty logs, and status
500 exactly when the return value is "error" with exactly one log line. -/
theorem c8_envelope_invariant (env : TotoroEnv)
    (r_list : Except String MailchimpList)
    (webhook_send : String → Except String ℕ) (r : ApiResponse)
    (h : (post_mailchimp_stats env r_list webhook_send).outcome = .responds r) :
    (r.status = 200 ∨ r.status = 500)
    ∧ (r.status = 200 ↔ r.json.return_value = "ok" ∧ r.json.logs = [])
    ∧ (r.status = 500 ↔ r.json.return_value = "error"
        ∧ r.json.logs.length = 1) := by
  simp only [post_mailchimp_stats] at h
  repeat' split at h
  all_goals simp at h
  all_goals subst h
  all_goals simp

/-- Witness for C8 at a concrete request that returns a response. -/
theorem c8_envelope_invariant_witness :
    (200 = 200 ∨ 200 = 500)
    ∧ ((200 = 200) ↔ ("ok" = "ok" ∧ ([] : List String) = []))
    ∧ ((200 = 500) ↔ ("ok" = "error" ∧ ([] : List String).length = 1)) :=
  c8_envelope_invariant ⟨some "key", some "list", none, none⟩
    (.ok ⟨some ⟨none, none, none, none, none, none⟩⟩) (fun _ => .ok 200)
    ⟨⟨[], "ok"⟩, 200⟩ rfl

/-- C9 counterexample: the present value "70000" is numeric, yet the port is
not 70000 — parsing at 16 bits fails and startup aborts fatally. -/
theorem c9_counterexample :
    rocket_port (some "70000") = .error "Custom Handler port is not a number!"
    ∧ rocket_port (some "70000") ≠ .ok 70000 := by
  constructor
  · rfl
  · intro h
    rw [show rocket_port (some "70000")
        = Except.error "Custom Handler port is not a number!" from rfl] at h
    exact Except.noConfusion h

/-- C9 amended: the listen port is 3000 when the port variable is absent;
when present, the port is its value whenever it parses as a 16-bit unsigned
integer, and a present value that does not so parse (non-numeric, or numeric
but out of the u16 range) is fatal at startup rather than falling back to
the default. -/
theorem c9_port_amended :
    rocket_port none = .ok 3000
    ∧ (∀ s n, parse_u16 s = some n → rocket_port (some s) = .ok n)
    ∧ (∀ s, parse_u16 s = none →
        rocket_port (some s) = .error "Custom Handler port is not a number!") := by
  refine ⟨rfl, ?_, ?_⟩
  · intro s n h
    simp [rocket_port, h]
  · intro s h
    simp [rocket_port, h]

/-- Witness for the amended C9 at a parsing and a non-parsing port value. -/
theorem c9_port_amended_witness :
    rocket_port (some "8080") = .ok 8080
    ∧ rocket_port (some "abc")
      = .error "Custom Handler port is not a number!" :=
  ⟨c9_port_amended.2.1 "8080" 8080 rfl, c9_port_amended.2.2 "abc" rfl⟩

theorem startsWithPat_true_iff (p l : List Char) :
    startsWithPat p l = true ↔ p <+: l := by
  simp [startsWithPat]

theorem countPat_nil (p : List Char) : countPat p [] = 0 := rfl

theorem countPat_cons (p : List Char) (c : Char) (l : List Char) :
    countPat p (c :: l)
      = (if startsWithPat p (c :: l) then 1 else 0) + countPat p l := rfl

theorem countPat_eq_zero_of_head_notMem (hd : Char) (tl l : List Char)
    (h : hd ∉ l) : countPat (hd :: tl) l = 0 := by
  induction l with
  | nil => rfl
  | cons c rest ih =>
    have hc : hd ≠ c := fun e => h (e ▸ List.mem_cons_self c rest)
    have hfalse : startsWithPat (hd :: tl) (c :: rest) = false := by
      rw [Bool.eq_false_iff]
      intro htrue
      rw [startsWithPat_true_iff, List.cons_prefix_cons] at htrue
      exact hc htrue.1
    rw [countPat_cons, hfalse, ih fun hm => h (List.mem_cons_of_mem c hm)]
    simp

theorem countPat_pos_of_occurs (hd : Char) (tl l : List Char)
    (h : (hd :: tl) <:+: l) : 0 < countPat (hd :: tl) l := by
  obtain ⟨s, t, hst⟩ := h
  subst hst
  induction s with
  | nil =>
    rw [show ([] ++ (hd :: tl) ++ t) = hd :: (tl ++ t) from by simp]
    rw [countPat_cons]
    have hs : startsWithPat (hd :: tl) (hd :: (tl ++ t)) = true := by
      rw [startsWithPat_true_iff]
      exact ⟨t, by simp⟩
    simp [hs]
  | cons a s ih =>
    rw [show ((a :: s) ++ (hd :: tl) ++ t) = a :: (s ++ (hd :: tl) ++ t)
        from by simp]
    rw [countPat_cons]
    exact Nat.lt_of_lt_of_le ih (Nat.le_add_left _ _)

theorem safeTail_of_head_notMem (hd : Char) (tl xs : List Char)
    (h : ∀ c ∈ xs, c ≠ hd) : safeTail (hd :: tl) xs := by
  intro s hs hne _hlen
  rw [List.mem_tails] at hs
  rcases s with _ | ⟨c, s'⟩
  · exact absurd rfl hne
  · have hcmem : c ∈ xs := hs.subset (List.mem_cons_self c s')
    have hcne : (c == hd) = false := by
      rw [beq_eq_false_iff_ne]
      exact h c hcmem
    simp [List.isPrefixOf, hcne]

theorem countPat_append_of_safe (hd : Char) (tl xs ys : List Char)
    (h : safeTail (hd :: tl) xs) :
    countPat (hd :: tl) (xs ++ ys)
      = countPat (hd :: tl) xs + countPat (hd :: tl) ys := by
  induction xs with
  | nil => simp [countPat_nil]
  | cons a xs ih =>
    have hsub : safeTail (hd :: tl) xs := by
      intro s hs hne hlen
      refine h s ?_ hne hlen
      rw [List.tails_cons]
      exact List.mem_cons_of_mem _ hs
    have hstep : startsWithPat (hd :: tl) (a :: (xs ++ ys))
        = startsWithPat (hd :: tl) (a :: xs) := by
      cases hcase : startsWithPat (hd :: tl) (a :: xs) with
      | true =>
        rw [startsWithPat_true_iff] at hcase
        rw [startsWithPat_true_iff]
        exact hcase.trans (List.prefix_append (a :: xs) ys)
      | false =>
        rw [Bool.eq_false_iff]
        intro htrue
        rw [startsWithPat_true_iff] at htrue
        rcases le_or_lt (tl.length + 1) (xs.length + 1) with hle | hlt
        · have hpre : (hd :: tl) <+: (a :: xs) :=
            List.prefix_of_prefix_length_le htrue
              (List.prefix_append (a :: xs) ys) (by simpa using hle)
          rw [← startsWithPat_true_iff] at hpre
          rw [hcase] at hpre
          exact Bool.noConfusion hpre
        · have hpre2 : (a :: xs) <+: (hd :: tl) :=
            List.prefix_of_prefix_length_le (List.prefix_append (a :: xs) ys)
              htrue (by simp; omega)
          have hmem : (a :: xs) ∈ (a :: xs).tails := by
            rw [List.mem_tails]
          have hfalse : startsWithPat (a :: xs) (hd :: tl) = false :=
            h (a :: xs) hmem (by simp) (by simpa using hlt)
          rw [← startsWithPat_true_iff] at hpre2
          rw [hfalse] at hpre2
          exact Bool.noConfusion hpre2
    rw [show (a :: xs) ++ ys = a :: (xs ++ ys) from rfl]
    rw [countPat_cons, countPat_cons, hstep, ih hsub]
    ring

theorem toDigitChars_isDigit (n : ℕ) :
    ∀ c ∈ toDigitChars n, c.isDigit = true := by
  induction n using Nat.strong_induction_on with
  | _ n ih =>
    by_cases h : n < 10
    · rw [toDigitChars, dif_pos h]
      intro c hc
      simp at hc
      subst hc
      interval_cases n <;> decide
    · rw [toDigitChars, dif_neg h]
      intro c hc
      rw [List.mem_append] at hc
      rcases hc with hc | hc
      · exact ih (n / 10) (Nat.div_lt_self (by omega) (by omega)) c hc
      · simp at hc
        subst hc
        have h10 : n % 10 < 10 := Nat.mod_lt _ (by omega)
        set m := n % 10 with hm
        interval_cases m <;> decide

theorem fmt0_digit_chars (q : ℚ) :
    ∀ c ∈ (fmt0 q).data, c.isDigit = true ∨ c = '-' := by
  intro c hc
  simp only [fmt0] at hc
  rw [List.mem_append] at hc
  rcases hc with hc | hc
  · right
    rcases lt_or_le q 0 with hq | hq
    · rw [if_pos hq] at hc
      simpa using hc
    · rw [if_neg (not_lt.mpr hq)] at hc
      simp at hc
  · left
    exact toDigitChars_isDigit _ c hc

theorem roundHalfEven_nearest (q : ℚ) :
    |(roundHalfEven q : ℚ) - q| ≤ 1 / 2 := by
  have h0 : (⌊q⌋ : ℚ) ≤ q := Int.floor_le q
  have h1 : q < ⌊q⌋ + 1 := Int.lt_floor_add_one q
  simp only [roundHalfEven]
  split_ifs <;> (rw [abs_le]; push_cast; constructor <;> linarith)

theorem content_eq (stats : ListStats) :
    post_mailchimp_content stats
      = "<strong>Mailchimp Stats (Rust)</strong><ul>"
        ++ optEntry stats.member_count
            "<li><strong>Active subscribers:</strong> " "</li>"
        ++ optEntry stats.member_count_since_send
            "<li><strong>Subscribes since last send:</strong> " "</li>"
        ++ optEntry stats.unsubscribe_count_since_send
            "<li><strong>Unsubscribes since last send:</strong> " "</li>"
        ++ optEntry stats.avg_sub_rate
            "<li><strong>Subscribe rate:</strong> " "/m</li>"
        ++ optEntry stats.avg_unsub_rate
            "<li><strong>Unsubscribe rate:</strong> " "/m</li>"
        ++ optEntry stats.click_rate
            "<li><strong>Click rate:</strong> " "%</li>" := by
  rcases stats with ⟨mc, ms, us, sr, ur, cr⟩
  cases mc <;> cases ms <;> cases us <;> cases sr <;> cases ur <;> cases cr <;>
    simp [post_mailchimp_content, optEntry, String.append_assoc]

theorem fmt0_no_lt (q : ℚ) : ∀ c ∈ (fmt0 q).data, c ≠ '<' := by
  intro c hc e
  rcases fmt0_digit_chars q c hc with hd | hd
  · rw [e] at hd
    exact absurd hd (by decide)
  · rw [e] at hd
    exact absurd hd (by decide)

theorem countPat_optEntry_append (tl : List Char) (o : Option ℚ)
    (pre suf : String) (rest : List Char)
    (hpre : safeTail ('<' :: tl) pre.data)
    (hsuf : safeTail ('<' :: tl) suf.data) :
    countPat ('<' :: tl) ((optEntry o pre suf).data ++ rest)
      = (if o.isSome then countPat ('<' :: tl) pre.data
          + countPat ('<' :: tl) suf.data else 0)
        + countPat ('<' :: tl) rest := by
  cases o with
  | none => simp [optEntry]
  | some v =>
    have hsafe_v : safeTail ('<' :: tl) (fmt0 v).data :=
      safeTail_of_head_notMem _ _ _ (fmt0_no_lt v)
    have hzero : countPat ('<' :: tl) (fmt0 v).data = 0 :=
      countPat_eq_zero_of_head_notMem _ _ _
        (fun hmem => fmt0_no_lt v '<' hmem rfl)
    rw [show optEntry (some v) pre suf = pre ++ fmt0 v ++ suf from rfl]
    simp only [String.data_append, List.append_assoc]
    rw [countPat_append_of_safe _ _ _ _ hpre,
      countPat_append_of_safe _ _ _ _ hsafe_v,
      countPat_append_of_safe _ _ _ _ hsuf, hzero]
    simp only [Option.isSome, if_true]
    ring

theorem countPat_content (tl : List Char) (stats : ListStats)
    (hh : safeTail ('<' :: tl)
      "<strong>Mailchimp Stats (Rust)</strong><ul>".data)
    (hp1 : safeTail ('<' :: tl)
      "<li><strong>Active subscribers:</strong> ".data)
    (hp2 : safeTail ('<' :: tl)
      "<li><strong>Subscribes since last send:</strong> ".data)
    (hp3 : safeTail ('<' :: tl)
      "<li><strong>Unsubscribes since last send:</strong> ".data)
    (hp4 : safeTail ('<' :: tl) "<li><strong>Subscribe rate:</strong> ".data)
    (hp5 : safeTail ('<' :: tl) "<li><strong>Unsubscribe rate:</strong> ".data)
    (hp6 : safeTail ('<' :: tl) "<li><strong>Click rate:</strong> ".data)
    (hs1 : safeTail ('<' :: tl) "</li>".data)
    (hs2 : safeTail ('<' :: tl) "/m</li>".data)
    (hs3 : safeTail ('<' :: tl) "%</li>".data) :
    countPat ('<' :: tl) (post_mailchimp_content stats).data
      = countPat ('<' :: tl) "<strong>Mailchimp Stats (Rust)</strong><ul>".data
        + (if stats.member_count.isSome then
            countPat ('<' :: tl) "<li><strong>Active subscribers:</strong> ".data
            + countPat ('<' :: tl) "</li>".data else 0)
        + (if stats.member_count_since_send.isSome then
            countPat ('<' :: tl)
              "<li><strong>Subscribes since last send:</strong> ".data
            + countPat ('<' :: tl) "</li>".data else 0)
        + (if stats.unsubscribe_count_since_send.isSome then
            countPat ('<' :: tl)
              "<li><strong>Unsubscribes since last send:</strong> ".data
            + countPat ('<' :: tl) "</li>".data else 0)
        + (if stats.avg_sub_rate.isSome then
            countPat ('<' :: tl) "<li><strong>Subscribe rate:</strong> ".data
            + countPat ('<' :: tl) "/m</li>".data else 0)
        + (if stats.avg_unsub_rate.isSome then
            countPat ('<' :: tl) "<li><strong>Unsubscribe rate:</strong> ".data
            + countPat ('<' :: tl) "/m</li>".data else 0)
        + (if stats.click_rate.isSome then
            countPat ('<' :: tl) "<li><strong>Click rate:</strong> ".data
            + countPat ('<' :: tl) "%</li>".data else 0) := by
  rw [content_eq]
  simp only [String.data_append, List.append_assoc]
  rw [← List.append_nil (optEntry stats.click_rate
    "<li><strong>Click rate:</strong> " "%</li>").data]
  rw [countPat_append_of_safe _ _ _ _ hh,
    countPat_optEntry_append _ _ _ _ _ hp1 hs1,
    countPat_optEntry_append _ _ _ _ _ hp2 hs1,
    countPat_optEntry_append _ _ _ _ _ hp3 hs1,
    countPat_optEntry_append _ _ _ _ _ hp4 hs2,
    countPat_optEntry_append _ _ _ _ _ hp5 hs2,
    countPat_optEntry_append _ _ _ _ _ hp6 hs3,
    countPat_nil]
  ring

theorem liPat_eq : liPat = '<' :: 'l' :: 'i' :: '>' :: [] := rfl

theorem ulPat_eq : ulPat = '<' :: '/' :: 'u' :: 'l' :: '>' :: [] := rfl

theorem content_li_count (stats : ListStats) :
    countPat liPat (post_mailchimp_content stats).data = presentCount stats := by
  rw [liPat_eq, countPat_content _ stats (by decide) (by decide) (by decide)
    (by decide) (by decide) (by decide) (by decide) (by decide) (by decide)
    (by decide)]
  rcases stats with ⟨mc, ms, us, sr, ur, cr⟩
  cases mc <;> cases ms <;> cases us <;> cases sr <;> cases ur <;> cases cr <;>
    simp [presentCount] <;> decide

theorem content_ul_count (stats : ListStats) :
    countPat ulPat (post_mailchimp_content stats).data = 0 := by
  rw [ulPat_eq, countPat_content _ stats (by decide) (by decide) (by decide)
    (by decide) (by decide) (by decide) (by decide) (by decide) (by decide)
    (by decide)]
  rcases stats with ⟨mc, ms, us, sr, ur, cr⟩
  cases mc <;> cases ms <;> cases us <;> cases sr <;> cases ur <;> cases cr <;>
    simp <;> decide

/-- C1: with all six fields present the formatter emits exactly six list
items, in the fixed order with their labels and suffixes, each value
rendered with the zero-decimal-place format, whose rounding is to a nearest
integer. -/
theorem c1_formatter_all_fields (q1 q2 q3 q4 q5 q6 : ℚ) :
    post_mailchimp_content
        ⟨some q1, some q2, some q3, some q4, some q5, some q6⟩
      = "<strong>Mailchimp Stats (Rust)</strong><ul>"
        ++ ("<li><strong>Active subscribers:</strong> "
            ++ fmt0 q1 ++ "</li>")
        ++ ("<li><strong>Subscribes since last send:</strong> "
            ++ fmt0 q2 ++ "</li>")
        ++ ("<li><strong>Unsubscribes since last send:</strong> "
            ++ fmt0 q3 ++ "</li>")
        ++ ("<li><strong>Subscribe rate:</strong> "
            ++ fmt0 q4 ++ "/m</li>")
        ++ ("<li><strong>Unsubscribe rate:</strong> "
            ++ fmt0 q5 ++ "/m</li>")
        ++ ("<li><strong>Click rate:</strong> "
            ++ fmt0 q6 ++ "%</li>")
    ∧ countPat liPat (post_mailchimp_content
        ⟨some q1, some q2, some q3, some q4, some q5, some q6⟩).data = 6
    ∧ (∀ q : ℚ, |(roundHalfEven q : ℚ) - q| ≤ 1 / 2) := by
  refine ⟨?_, ?_, fun q => roundHalfEven_nearest q⟩
  · simp [post_mailchimp_content, String.append_assoc]
  · rw [content_li_count]
    simp [presentCount]

/-- C2: the formatter renders exactly one list item per present field and
nothing at all for an absent field; in particular with only the click rate
present the output is the header followed by the single click-rate item. -/
theorem c2_formatter_subset (stats : ListStats) (v : ℚ) :
    post_mailchimp_content stats
      = "<strong>Mailchimp Stats (Rust)</strong><ul>"
        ++ optEntry stats.member_count
            "<li><strong>Active subscribers:</strong> " "</li>"
        ++ optEntry stats.member_count_since_send
            "<li><strong>Subscribes since last send:</strong> " "</li>"
        ++ optEntry stats.unsubscribe_count_since_send
            "<li><strong>Unsubscribes since last send:</strong> " "</li>"
        ++ optEntry stats.avg_sub_rate
            "<li><strong>Subscribe rate:</strong> " "/m</li>"
        ++ optEntry stats.avg_unsub_rate
            "<li><strong>Unsubscribe rate:</strong> " "/m</li>"
        ++ optEntry stats.click_rate
            "<li><strong>Click rate:</strong> " "%</li>"
    ∧ countPat liPat (post_mailchimp_content stats).data = presentCount stats
    ∧ post_mailchimp_content ⟨none, none, none, none, none, some v⟩
      = "<strong>Mailchimp Stats (Rust)</strong><ul>"
        ++ ("<li><strong>Click rate:</strong> " ++ fmt0 v ++ "%</li>")
    ∧ countPat liPat (post_mailchimp_content
        ⟨none, none, none, none, none, some v⟩).data = 1 := by
  refine ⟨content_eq stats, content_li_count stats, ?_, ?_⟩
  · simp [post_mailchimp_content, String.append_assoc]
  · rw [content_li_count]
    simp [presentCount]

/-- C10: for every stats record the formatted summary begins with the fixed
header, which opens an unordered list, and the closing tag of that list
never occurs in the summary. -/
theorem c10_header_and_unbalanced_ul (stats : ListStats) :
    "<strong>Mailchimp Stats (Rust)</strong><ul>".data
      <+: (post_mailchimp_content stats).data
    ∧ ¬ ("</ul>".data <:+: (post_mailchimp_content stats).data) := by
  constructor
  · rw [content_eq]
    simp only [String.data_append, List.append_assoc]
    exact List.prefix_append _ _
  · intro hinf
    have h1 : 0 < countPat ulPat (post_mailchimp_content stats).data := by
      rw [ulPat_eq]
      exact countPat_pos_of_occurs _ _ _ hinf
    rw [content_ul_count] at h1
    exact Nat.lt_irrefl 0 h1
